import Mathlib

/-!
Verification of the adaptive mastery-and-scheduling engine:
a shallow embedding in Lean of `knowledge_tracker.py` (Bayesian Knowledge
Tracing) and `spaced_scheduler.py` (SM-2-style scheduler), with theorems
checking the specified behaviour.

Modelling conventions:
- Python floats are modelled as exact rationals (ℚ); quality ratings are ℤ
  (Python `int`); counters are ℕ.
- Timestamps are modelled as rationals measured in days, so
  `next_review = now + interval` replaces the `timedelta(days=...)` arithmetic.
- The random noise drawn by `random.uniform(-0.05, 0.05)` is passed in as an
  explicit parameter `u`.
- Python dicts keyed by topic id are modelled as association lists in
  insertion order (Python dicts preserve insertion order).
- Display-only rounding (`round(x, n)`, `strftime`) and the reason strings of
  `suggest_topic` are omitted; all stored and compared values are kept exact.
-/

namespace KnowledgeTracker

/-- BKT parameter P(L0) from DEFAULT_PARAMS in knowledge_tracker.py. -/
def p_init : ℚ := 3/10

/-- BKT parameter P(T) from DEFAULT_PARAMS. -/
def p_learn : ℚ := 1/10

/-- BKT parameter P(S) from DEFAULT_PARAMS. -/
def p_slip : ℚ := 1/10

/-- BKT parameter P(G) from DEFAULT_PARAMS. -/
def p_guess : ℚ := 1/5

/-- Mastery threshold constant from knowledge_tracker.py. -/
def MASTERY_THRESHOLD : ℚ := 95/100

/-- Embeds `update_mastery(p_known, is_correct)` from knowledge_tracker.py:
observation posterior with the `p_obs > 0` guard, learning transition, then
clamping to [0.01, 0.99]. -/
def update_mastery (p_known : ℚ) (is_correct : Bool) : ℚ :=
  let p_known_given_obs :=
    if is_correct then
      let p_obs := p_known * (1 - p_slip) + (1 - p_known) * p_guess
      if 0 < p_obs then (p_known * (1 - p_slip)) / p_obs else p_known
    else
      let p_obs := p_known * p_slip + (1 - p_known) * (1 - p_guess)
      if 0 < p_obs then (p_known * p_slip) / p_obs else p_known
  let p_known_new := p_known_given_obs + (1 - p_known_given_obs) * p_learn
  max (1/100) (min (99/100) p_known_new)

/-- Per-topic BKT state, from the TopicState TypedDict of knowledge_tracker.py. -/
structure TopicState where
  p_known : ℚ
  attempts : ℕ
  correct : ℕ
  difficulty : ℕ
deriving DecidableEq

/-- The progress store: topic id to state, in insertion order (Python dict). -/
abbrev Progress : Type := List (String × TopicState)

/-- Default state created by get_topic_state for an unseen topic. -/
def defaultState : TopicState :=
  { p_known := p_init, attempts := 0, correct := 0, difficulty := 1 }

/-- Lookup of a topic in the progress store (Python dict membership/indexing). -/
def lookupState : Progress → String → Option TopicState
  | [], _ => none
  | (k, v) :: rest, topic => if k = topic then some v else lookupState rest topic

/-- Embeds get_topic_state: returns the stored state, lazily adding the
default record when the topic is absent (Python mutates progress in place;
here the possibly-extended store is returned alongside the state). -/
def get_topic_state (p : Progress) (topic : String) : Progress × TopicState :=
  match lookupState p topic with
  | some st => (p, st)
  | none => (p ++ [(topic, defaultState)], defaultState)

/-- Result record of get_topic_mastery (display rounding omitted). -/
structure MasteryReport where
  topic : String
  p_known : ℚ
  mastered : Bool
  attempts : ℕ
  correct : ℕ
  success_rate : ℚ
  difficulty : ℕ
deriving DecidableEq

/-- Embeds get_topic_mastery: reads (and lazily initializes) a topic's state
and saves the possibly-extended store, returned as the first component. -/
def get_topic_mastery (p : Progress) (topic : String) : Progress × MasteryReport :=
  let res := get_topic_state p topic
  (res.1,
    { topic := topic
      p_known := res.2.p_known
      mastered := decide (MASTERY_THRESHOLD ≤ res.2.p_known)
      attempts := res.2.attempts
      correct := res.2.correct
      success_rate := if 0 < res.2.attempts then
          (res.2.correct : ℚ) / (res.2.attempts : ℚ) else 0
      difficulty := res.2.difficulty })

/-- Per-topic status string computed inside get_all_status. -/
def statusOf (st : TopicState) : String :=
  if MASTERY_THRESHOLD ≤ st.p_known then "mastered"
  else if 0 < st.attempts then "in_progress"
  else "not_started"

/-- Aggregate result of get_all_status. -/
structure StatusReport where
  total_topics : ℕ
  mastered : ℕ
  in_progress : ℕ
  not_started : ℕ
  topics : List (String × ℚ × String × ℕ)
deriving DecidableEq

/-- Embeds get_all_status: a pure aggregation over all topics (the Python
function performs no writes). -/
def get_all_status (p : Progress) : StatusReport :=
  { total_topics := p.length
    mastered := (p.filter (fun e => decide (MASTERY_THRESHOLD ≤ e.2.p_known))).length
    in_progress := (p.filter (fun e =>
        decide (e.2.p_known < MASTERY_THRESHOLD) && decide (0 < e.2.attempts))).length
    not_started := (p.filter (fun e =>
        decide (e.2.p_known < MASTERY_THRESHOLD) && decide (e.2.attempts = 0))).length
    topics := p.map (fun e => (e.1, e.2.p_known, statusOf e.2, e.2.attempts)) }

/-- State-threaded wrapper for get_all_status: it never saves, so the store
comes back unchanged. -/
def statusOp (p : Progress) : StatusReport × Progress := (get_all_status p, p)

/-- Candidate list built by suggest_topic: topics below the mastery
threshold, as (name, p_known, attempts) triples. -/
def candidates (p : Progress) : List (String × ℚ × ℕ) :=
  (p.filter (fun e => decide (e.2.p_known < MASTERY_THRESHOLD))).map
    (fun e => (e.1, e.2.p_known, e.2.attempts))

/-- Lexicographic order on the (p_known, attempts) sort key used by
suggest_topic's candidates.sort. -/
def candLE (c d : String × ℚ × ℕ) : Prop :=
  c.2.1 < d.2.1 ∨ (c.2.1 = d.2.1 ∧ c.2.2 ≤ d.2.2)

instance : DecidableRel candLE := fun _ _ =>
  inferInstanceAs (Decidable (_ ∨ _))

instance : IsTotal (String × ℚ × ℕ) candLE :=
  ⟨by
    intro a b
    rcases lt_trichotomy a.2.1 b.2.1 with h | h | h
    · exact Or.inl (Or.inl h)
    · rcases le_total a.2.2 b.2.2 with h2 | h2
      · exact Or.inl (Or.inr ⟨h, h2⟩)
      · exact Or.inr (Or.inr ⟨h.symm, h2⟩)
    · exact Or.inr (Or.inl h)⟩

instance : IsTrans (String × ℚ × ℕ) candLE :=
  ⟨by
    intro a b c hab hbc
    rcases hab with h1 | ⟨h1, h1'⟩ <;> rcases hbc with h2 | ⟨h2, h2'⟩
    · exact Or.inl (h1.trans h2)
    · exact Or.inl (h2 ▸ h1)
    · exact Or.inl (h1 ▸ h2)
    · exact Or.inr ⟨h1.trans h2, h1'.trans h2'⟩⟩

/-- Embeds suggest_topic: stable sort of the candidates by (p_known,
attempts) and return of the first element; none when every topic is at or
above the mastery threshold ("All tracked topics are mastered!"). Mathlib's
insertionSort is stable, matching Python's list.sort. The banded reason
string is display-only and omitted. -/
def suggest_topic (p : Progress) : Option (String × ℚ × ℕ) :=
  match List.insertionSort candLE (candidates p) with
  | [] => none
  | c :: _ => some c

/-- Concrete store from the spec's Suggest example: topic A with mastery 0.2
after 5 attempts and topic B with mastery 0.6 after 1 attempt. -/
def exampleAB : Progress :=
  [("A", { p_known := 1/5, attempts := 5, correct := 0, difficulty := 1 }),
   ("B", { p_known := 3/5, attempts := 1, correct := 0, difficulty := 1 })]

end KnowledgeTracker

namespace SpacedScheduler

/-- Starting ease factor for new topics (spaced_scheduler.py constant). -/
def DEFAULT_EASE_FACTOR : ℚ := 5/2

/-- Minimum ease factor (spaced_scheduler.py constant). -/
def MIN_EASE_FACTOR : ℚ := 13/10

/-- Ease-factor penalty for quality < 3 (spaced_scheduler.py constant). -/
def EASE_PENALTY : ℚ := 2/10

/-- Noise amplitude for interval jitter (spaced_scheduler.py constant). -/
def NOISE_FACTOR : ℚ := 5/100

/-- One entry of quality_history: the recorded quality and its timestamp. -/
structure QualityEntry where
  quality : ℤ
  timestamp : ℚ
deriving DecidableEq

/-- Per-topic scheduling record, from _get_topic_data's initialisation. -/
structure TopicData where
  ease_factor : ℚ
  interval : ℚ
  repetitions : ℕ
  next_review : ℚ
  last_review : Option ℚ
  total_reviews : ℕ
  quality_history : List QualityEntry
deriving DecidableEq

/-- The schedule store: topic id to record, in insertion order (Python dict). -/
abbrev Schedule : Type := List (String × TopicData)

/-- Defaults installed by _get_topic_data for an unseen topic. -/
def defaultTopicData (now : ℚ) : TopicData :=
  { ease_factor := DEFAULT_EASE_FACTOR, interval := 0, repetitions := 0,
    next_review := now, last_review := none, total_reviews := 0,
    quality_history := [] }

/-- Lookup of a topic in the schedule (Python dict membership/indexing). -/
def lookupTopic : Schedule → String → Option TopicData
  | [], _ => none
  | (k, v) :: rest, tid => if k = tid then some v else lookupTopic rest tid

/-- Embeds _get_topic_data: returns the stored record, lazily adding the
default record when the topic is absent. -/
def getTopicData (s : Schedule) (tid : String) (now : ℚ) : Schedule × TopicData :=
  match lookupTopic s tid with
  | some t => (s, t)
  | none => (s ++ [(tid, defaultTopicData now)], defaultTopicData now)

/-- Writes back the updated record for a topic already present in the store
(Python mutates the dict entry in place). -/
def setTopic (s : Schedule) (tid : String) (t : TopicData) : Schedule :=
  s.map (fun e => if e.1 = tid then (tid, t) else e)

/-- Step 1 of the SM-2 update in review: the ease-factor change and the
clamp to MIN_EASE_FACTOR. -/
def updateEase (ef : ℚ) (q : ℤ) : ℚ :=
  let ef2 :=
    if 3 ≤ q then
      ef + (1/10 - ((5 - q : ℤ) : ℚ) * (8/100 + ((5 - q : ℤ) : ℚ) * (2/100)))
    else ef - EASE_PENALTY
  max MIN_EASE_FACTOR ef2

/-- Embeds _add_noise with the random draw u passed explicitly. -/
def addNoise (interval u : ℚ) : ℚ := interval * (1 + u)

/-- Embeds the body of review(topic_id, quality) acting on one topic record
(after validation): history bookkeeping, ease update, the SM-2 interval
state machine, noise, and the next_review computation. -/
def reviewStep (t : TopicData) (q : ℤ) (now u : ℚ) : TopicData :=
  let hist0 := t.quality_history ++ [{ quality := q, timestamp := now }]
  let hist := if 20 < hist0.length then hist0.drop (hist0.length - 20) else hist0
  let ef := updateEase t.ease_factor q
  let res : ℕ × ℚ :=
    if q < 3 then (0, 1)
    else (t.repetitions + 1,
      if t.repetitions = 0 then 1
      else if t.repetitions = 1 then 6
      else t.interval * ef)
  let next_interval := addNoise res.2 u
  { ease_factor := ef
    interval := next_interval
    repetitions := res.1
    next_review := now + next_interval
    last_review := some now
    total_reviews := t.total_reviews + 1
    quality_history := hist }

/-- Embeds review(topic_id, quality): the quality precondition is checked
before any access to the store, so an invalid quality raises with no
mutation and no lazy record creation. -/
def review (s : Schedule) (tid : String) (q : ℤ) (now u : ℚ) :
    Except String Schedule :=
  if ¬ (0 ≤ q ∧ q ≤ 5) then Except.error "Quality must be between 0 and 5"
  else
    let res := getTopicData s tid now
    Except.ok (setTopic res.1 tid (reviewStep res.2 q now u))

/-- Caller-level view of review: the store after the call, unchanged when
review raised. -/
def applyReview (s : Schedule) (tid : String) (q : ℤ) (now u : ℚ) : Schedule :=
  match review s tid q now u with
  | Except.ok s2 => s2
  | Except.error _ => s

/-- A sequence of validated reviews of one topic record, each with its own
quality, timestamp and noise draw. -/
def runReviews (t : TopicData) (rs : List (ℤ × ℚ × ℚ)) : TopicData :=
  rs.foldl (fun acc r => reviewStep acc r.1 r.2.1 r.2.2) t

/-- Embeds reset_topic: deletes the schedule record entirely. -/
def reset_topic (s : Schedule) (tid : String) : Schedule :=
  s.filter (fun e => !(decide (e.1 = tid)))

/-- The total_reviews counter of a topic as observable through the store. -/
def totalOf (s : Schedule) (tid : String) : Option ℕ :=
  (lookupTopic s tid).map (fun t => t.total_reviews)

/-- Derived view returned by get_stats (display rounding and strftime
formatting omitted; days_until_review is the exact difference in days). -/
structure Stats where
  topic_id : String
  ease_factor : ℚ
  current_interval_days : ℚ
  repetitions : ℕ
  total_reviews : ℕ
  average_quality : ℚ
  next_review : ℚ
  days_until_review : ℚ
  status : String
  last_review : Option ℚ
  recent_quality : List ℤ
deriving DecidableEq

/-- Embeds get_stats(topic_id): none for an unknown topic (checked before
any store access), otherwise the derived statistics view. -/
def get_stats (s : Schedule) (tid : String) (now : ℚ) : Option Stats :=
  match lookupTopic s tid with
  | none => none
  | some t =>
    let avg : ℚ :=
      if t.quality_history = [] then 0
      else ((t.quality_history.map (fun e => (e.quality : ℚ))).sum) /
        (t.quality_history.length : ℚ)
    let days_until := t.next_review - now
    some
      { topic_id := tid
        ease_factor := t.ease_factor
        current_interval_days := t.interval
        repetitions := t.repetitions
        total_reviews := t.total_reviews
        average_quality := avg
        next_review := t.next_review
        days_until_review := days_until
        status := if days_until < 0 then "overdue" else "upcoming"
        last_review := t.last_review
        recent_quality :=
          (t.quality_history.map (fun e => e.quality)).drop
            (t.quality_history.length - 5) }

/-- State-threaded wrapper for get_stats: it never saves and never calls
_get_topic_data, so the store comes back unchanged. -/
def getStatsOp (s : Schedule) (tid : String) (now : ℚ) :
    Option Stats × Schedule :=
  (get_stats s tid now, s)

/-- The quality_history entry produced by one element of a review sequence. -/
def entryOf (r : ℤ × ℚ × ℚ) : QualityEntry :=
  { quality := r.1, timestamp := r.2.1 }

/-- A run of 21 perfect reviews at distinct timestamps 0, 1, ..., 20. -/
def run21 : List (ℤ × ℚ × ℚ) :=
  (List.range 21).map (fun i => ((5 : ℤ), (i : ℚ), (0 : ℚ)))

end SpacedScheduler

/-- C2: for every p_known in [0,1] and every boolean is_correct, the BKT
update returns a value clamped to [0.01, 0.99]. -/
theorem update_mastery_bounds (p : ℚ) (b : Bool) (h0 : 0 ≤ p) (h1 : p ≤ 1) :
    1/100 ≤ KnowledgeTracker.update_mastery p b ∧
      KnowledgeTracker.update_mastery p b ≤ 99/100 := by
  unfold KnowledgeTracker.update_mastery
  refine ⟨le_max_left _ _, max_le (by norm_num) ?_⟩
  exact le_trans (min_le_left _ _) (le_refl _)

/-- Witness for C2: the bounds theorem applied at p_known = 1/2, correct. -/
theorem update_mastery_bounds_witness :
    1/100 ≤ KnowledgeTracker.update_mastery (1/2) true ∧
      KnowledgeTracker.update_mastery (1/2) true ≤ 99/100 :=
  update_mastery_bounds (1/2) true (by norm_num) (by norm_num)

/-- C4: with the fixed parameters, the BKT update from p_known = 0.3 yields
exactly 142/205 ≈ 0.6927 on a correct answer (p_obs = 0.41, posterior
27/41 ≈ 0.6585) and exactly 43/295 ≈ 0.1457 on an incorrect answer
(p_obs = 0.59, posterior 3/59 ≈ 0.0508). -/
theorem update_mastery_examples :
    KnowledgeTracker.update_mastery (3/10) true = 142/205
    ∧ KnowledgeTracker.update_mastery (3/10) false = 43/295
    ∧ |(142/205 : ℚ) - 6927/10000| < 1/10000
    ∧ |(43/295 : ℚ) - 1457/10000| < 1/10000
    ∧ (3/10 : ℚ) * (1 - KnowledgeTracker.p_slip)
        + (1 - 3/10) * KnowledgeTracker.p_guess = 41/100
    ∧ (3/10 : ℚ) * KnowledgeTracker.p_slip
        + (1 - 3/10) * (1 - KnowledgeTracker.p_guess) = 59/100
    ∧ |((3/10 : ℚ) * (1 - KnowledgeTracker.p_slip)) / (41/100) - 6585/10000| < 1/10000
    ∧ |((3/10 : ℚ) * KnowledgeTracker.p_slip) / (59/100) - 508/10000| < 1/10000 := by
  refine ⟨?_, ?_, by norm_num [abs_lt], by norm_num [abs_lt],
    by norm_num [KnowledgeTracker.p_slip, KnowledgeTracker.p_guess],
    by norm_num [KnowledgeTracker.p_slip, KnowledgeTracker.p_guess],
    by norm_num [KnowledgeTracker.p_slip, abs_lt],
    by norm_num [KnowledgeTracker.p_slip, abs_lt]⟩
  · unfold KnowledgeTracker.update_mastery KnowledgeTracker.p_slip
      KnowledgeTracker.p_guess KnowledgeTracker.p_learn
    norm_num [min_def, max_def]
  · unfold KnowledgeTracker.update_mastery KnowledgeTracker.p_slip
      KnowledgeTracker.p_guess KnowledgeTracker.p_learn
    norm_num [min_def, max_def]

/-- Helper: appending a fresh topic makes it visible to a later lookup. -/
theorem lookupState_append_self (p : KnowledgeTracker.Progress) (topic : String)
    (v : KnowledgeTracker.TopicState)
    (h : KnowledgeTracker.lookupState p topic = none) :
    KnowledgeTracker.lookupState (p ++ [(topic, v)]) topic = some v := by
  induction p with
  | nil => simp [KnowledgeTracker.lookupState]
  | cons e rest ih =>
    obtain ⟨k, w⟩ := e
    by_cases hk : k = topic
    · simp [KnowledgeTracker.lookupState, hk] at h
    · simp only [List.cons_append, KnowledgeTracker.lookupState, if_neg hk] at h ⊢
      exact ih h

/-- Helper: get_topic_state is idempotent on the store. -/
theorem get_topic_state_idem (p : KnowledgeTracker.Progress) (topic : String) :
    (KnowledgeTracker.get_topic_state
        (KnowledgeTracker.get_topic_state p topic).1 topic).1
      = (KnowledgeTracker.get_topic_state p topic).1 := by
  unfold KnowledgeTracker.get_topic_state
  cases h : KnowledgeTracker.lookupState p topic with
  | some st => simp [h]
  | none =>
    simp [h, lookupState_append_self p topic KnowledgeTracker.defaultState h]

/-- C8: suggest_topic considers exactly the topics below the mastery
threshold; any returned topic is a candidate whose (p_known, attempts) key
is lexicographically least among all candidates; it signals "all mastered"
(none) exactly when no topic qualifies; and on the spec's example
(A: mastery 0.2, 5 attempts; B: mastery 0.6, 1 attempt) it returns A. -/
theorem suggest_topic_spec (p : KnowledgeTracker.Progress)
    (c : String × ℚ × ℕ)
    (h : KnowledgeTracker.suggest_topic p = some c) :
    (c ∈ KnowledgeTracker.candidates p
      ∧ ∀ d ∈ KnowledgeTracker.candidates p, KnowledgeTracker.candLE c d)
    ∧ (∀ p2 : KnowledgeTracker.Progress,
        KnowledgeTracker.suggest_topic p2 = none
          ↔ KnowledgeTracker.candidates p2 = [])
    ∧ KnowledgeTracker.suggest_topic KnowledgeTracker.exampleAB
        = some ("A", 1/5, 5) := by
  refine ⟨?_, ?_, by
    norm_num [KnowledgeTracker.suggest_topic, KnowledgeTracker.exampleAB,
      KnowledgeTracker.candidates, KnowledgeTracker.MASTERY_THRESHOLD,
      KnowledgeTracker.candLE, List.insertionSort, List.orderedInsert]⟩
  · unfold KnowledgeTracker.suggest_topic at h
    have hperm := List.perm_insertionSort KnowledgeTracker.candLE
      (KnowledgeTracker.candidates p)
    have hsorted := List.sorted_insertionSort KnowledgeTracker.candLE
      (KnowledgeTracker.candidates p)
    cases hs : List.insertionSort KnowledgeTracker.candLE
        (KnowledgeTracker.candidates p) with
    | nil => rw [hs] at h; exact absurd h (by simp)
    | cons c0 rest =>
      rw [hs] at h hperm hsorted
      simp only [Option.some.injEq] at h
      subst h
      constructor
      · exact hperm.mem_iff.mp (List.mem_cons_self _ _)
      · intro d hd
        rcases List.mem_cons.mp (hperm.mem_iff.mpr hd) with h1 | h1
        · subst h1; exact Or.inr ⟨rfl, le_refl _⟩
        · exact List.rel_of_sorted_cons hsorted d h1
  · intro p2
    unfold KnowledgeTracker.suggest_topic
    have hperm := List.perm_insertionSort KnowledgeTracker.candLE
      (KnowledgeTracker.candidates p2)
    cases hs : List.insertionSort KnowledgeTracker.candLE
        (KnowledgeTracker.candidates p2) with
    | nil =>
      rw [hs] at hperm
      simp [hperm.symm.eq_nil]
    | cons c0 rest =>
      rw [hs] at hperm
      have hne : KnowledgeTracker.candidates p2 ≠ [] := by
        intro hnil
        rw [hnil] at hperm
        simpa using hperm.length_eq
      simp [hne]

/-- Witness for C8: on the spec's example store the returned topic A is a
candidate. -/
theorem suggest_topic_spec_witness :
    ("A", (1 : ℚ)/5, (5 : ℕ))
      ∈ KnowledgeTracker.candidates KnowledgeTracker.exampleAB :=
  (suggest_topic_spec KnowledgeTracker.exampleAB ("A", 1/5, 5) (by
    norm_num [KnowledgeTracker.suggest_topic, KnowledgeTracker.exampleAB,
      KnowledgeTracker.candidates, KnowledgeTracker.MASTERY_THRESHOLD,
      KnowledgeTracker.candLE, List.insertionSort, List.orderedInsert])).1.1

/-- C9 counterexample: reading a topic through get_topic_mastery on an empty
store creates and persists a default record, so the read changed the stored
state — the claim as stated is false. -/
theorem reads_mutate_counterexample :
    (KnowledgeTracker.get_topic_mastery
        ([] : KnowledgeTracker.Progress) "A").1
      = [("A", KnowledgeTracker.defaultState)]
    ∧ [("A", KnowledgeTracker.defaultState)]
        ≠ ([] : KnowledgeTracker.Progress) := by
  exact ⟨rfl, by simp⟩

/-- C9 amended: get_topic_mastery is idempotent on the store (a repeated
read adds nothing new) and leaves the store unchanged whenever the topic
already has a record; get_all_status and get_stats never change the store
at all. Only the first get_topic_mastery of an unseen topic mutates state,
by lazily creating the default record. -/
theorem reads_idempotent (p : KnowledgeTracker.Progress) (topic : String)
    (st : KnowledgeTracker.TopicState)
    (s : SpacedScheduler.Schedule) (tid : String) (now : ℚ) :
    (KnowledgeTracker.get_topic_mastery
        (KnowledgeTracker.get_topic_mastery p topic).1 topic).1
      = (KnowledgeTracker.get_topic_mastery p topic).1
    ∧ (KnowledgeTracker.lookupState p topic = some st →
        (KnowledgeTracker.get_topic_mastery p topic).1 = p)
    ∧ (KnowledgeTracker.statusOp p).2 = p
    ∧ (SpacedScheduler.getStatsOp s tid now).2 = s := by
  refine ⟨?_, ?_, rfl, rfl⟩
  · unfold KnowledgeTracker.get_topic_mastery
    exact get_topic_state_idem p topic
  · intro h
    unfold KnowledgeTracker.get_topic_mastery KnowledgeTracker.get_topic_state
    simp [h]

/-- Witness for C9's amended theorem: on a store already holding topic A,
get_topic_mastery leaves the store unchanged. -/
theorem reads_idempotent_witness :
    (KnowledgeTracker.get_topic_mastery
        [("A", KnowledgeTracker.defaultState)] "A").1
      = [("A", KnowledgeTracker.defaultState)] :=
  (reads_idempotent [("A", KnowledgeTracker.defaultState)] "A"
    KnowledgeTracker.defaultState [] "A" 0).2.1
    (by simp [KnowledgeTracker.lookupState])

/-- C10: get_stats for a topic with no schedule record returns none and does
not create a record — the store is identical before and after the call. -/
theorem get_stats_missing (s : SpacedScheduler.Schedule) (tid : String)
    (now : ℚ) (h : SpacedScheduler.lookupTopic s tid = none) :
    SpacedScheduler.get_stats s tid now = none
    ∧ (SpacedScheduler.getStatsOp s tid now).2 = s := by
  unfold SpacedScheduler.getStatsOp SpacedScheduler.get_stats
  rw [h]
  exact ⟨rfl, rfl⟩

/-- Witness for C10: get_stats on the empty store returns none and leaves
the store empty. -/
theorem get_stats_missing_witness :
    SpacedScheduler.get_stats ([] : SpacedScheduler.Schedule) "A" 0 = none
    ∧ (SpacedScheduler.getStatsOp ([] : SpacedScheduler.Schedule) "A" 0).2
        = [] :=
  get_stats_missing [] "A" 0 rfl

/-- C3 counterexample: at ease_factor 2.5 a quality-4 review leaves the ease
factor unchanged — the claimed formula's net change at quality 4 is 0, not
the +0.02 the claim also asserts. -/
theorem ease_quality4_counterexample :
    SpacedScheduler.updateEase (5/2) 4 = 5/2
    ∧ SpacedScheduler.updateEase (5/2) 4 ≠ 5/2 + 2/100 := by
  constructor
  · norm_num [SpacedScheduler.updateEase, SpacedScheduler.MIN_EASE_FACTOR,
      max_def]
  · norm_num [SpacedScheduler.updateEase, SpacedScheduler.MIN_EASE_FACTOR,
      max_def]

/-- C3 amended: for quality >= 3 the pre-clamp ease change is
0.1 - (5-q)(0.08 + (5-q)(0.02)); in particular quality 5 adds +0.1,
quality 4 adds 0 net and quality 3 adds -0.14; quality < 3 subtracts 0.2;
the result is clamped to at least 1.3 and has no upper bound. -/
theorem updateEase_spec (ef : ℚ) (q : ℤ) :
    (3 ≤ q → SpacedScheduler.updateEase ef q
        = max SpacedScheduler.MIN_EASE_FACTOR
            (ef + (1/10 - ((5 - q : ℤ) : ℚ)
              * (8/100 + ((5 - q : ℤ) : ℚ) * (2/100)))))
    ∧ SpacedScheduler.updateEase ef 5 = max (13/10) (ef + 1/10)
    ∧ SpacedScheduler.updateEase ef 4 = max (13/10) ef
    ∧ SpacedScheduler.updateEase ef 3 = max (13/10) (ef - 14/100)
    ∧ (q < 3 → SpacedScheduler.updateEase ef q = max (13/10) (ef - 2/10))
    ∧ (13/10 : ℚ) ≤ SpacedScheduler.updateEase ef q
    ∧ (∀ B : ℚ, B < SpacedScheduler.updateEase (B + 1) 5) := by
  refine ⟨?_, ?_, ?_, ?_, ?_, ?_, ?_⟩
  · intro h
    unfold SpacedScheduler.updateEase
    rw [if_pos h]
  · unfold SpacedScheduler.updateEase SpacedScheduler.MIN_EASE_FACTOR
    norm_num
  · unfold SpacedScheduler.updateEase SpacedScheduler.MIN_EASE_FACTOR
    norm_num
  · unfold SpacedScheduler.updateEase SpacedScheduler.MIN_EASE_FACTOR
    norm_num
    ring_nf
  · intro h
    unfold SpacedScheduler.updateEase SpacedScheduler.MIN_EASE_FACTOR
      SpacedScheduler.EASE_PENALTY
    rw [if_neg (by omega)]
  · unfold SpacedScheduler.updateEase SpacedScheduler.MIN_EASE_FACTOR
    exact le_max_left _ _
  · intro B
    have h2 : SpacedScheduler.updateEase (B + 1) 5
        = max (13/10) (B + 1 + 1/10) := by
      unfold SpacedScheduler.updateEase SpacedScheduler.MIN_EASE_FACTOR
      norm_num
    rw [h2]
    exact lt_of_lt_of_le (by linarith) (le_max_right _ _)

/-- Witness for C3's amended theorem: a failed review at ease 2 gives
max(1.3, 2 - 0.2). -/
theorem updateEase_spec_witness :
    SpacedScheduler.updateEase 2 1 = max (13/10) (2 - 2/10) :=
  (updateEase_spec 2 1).2.2.2.2.1 (by decide)

/-- C6: review with quality outside [0,5] fails validation and performs no
state mutation: the call returns exactly the validation error, the
caller-level store is unchanged, and no record is lazily created. -/
theorem review_invalid (s : SpacedScheduler.Schedule) (tid : String)
    (q : ℤ) (now u : ℚ) (h : q < 0 ∨ 5 < q) :
    SpacedScheduler.review s tid q now u
        = Except.error "Quality must be between 0 and 5"
    ∧ SpacedScheduler.applyReview s tid q now u = s
    ∧ SpacedScheduler.lookupTopic
        (SpacedScheduler.applyReview s tid q now u) tid
      = SpacedScheduler.lookupTopic s tid := by
  have hcond : ¬ (0 ≤ q ∧ q ≤ 5) := by omega
  have h1 : SpacedScheduler.review s tid q now u
      = Except.error "Quality must be between 0 and 5" := by
    unfold SpacedScheduler.review
    rw [if_pos hcond]
  have h2 : SpacedScheduler.applyReview s tid q now u = s := by
    unfold SpacedScheduler.applyReview
    rw [h1]
  exact ⟨h1, h2, by rw [h2]⟩

/-- Witness for C6: review of quality 7 on the empty store raises the
validation error and leaves the store empty. -/
theorem review_invalid_witness :
    SpacedScheduler.review ([] : SpacedScheduler.Schedule) "A" 7 0 0
        = Except.error "Quality must be between 0 and 5"
    ∧ SpacedScheduler.applyReview ([] : SpacedScheduler.Schedule) "A" 7 0 0
        = [] :=
  ⟨(review_invalid [] "A" 7 0 0 (Or.inr (by decide))).1,
   (review_invalid [] "A" 7 0 0 (Or.inr (by decide))).2.1⟩

/-- C7 counterexample: two reviews of topic A make its total_reviews 2;
Reset deletes the record, and the next review recreates it with
total_reviews 1 — an observably smaller value than previously observed. -/
theorem total_reviews_reset_counterexample :
    SpacedScheduler.totalOf
        (SpacedScheduler.applyReview
          (SpacedScheduler.applyReview ([] : SpacedScheduler.Schedule)
            "A" 5 0 0) "A" 5 1 0) "A" = some 2
    ∧ SpacedScheduler.totalOf
        (SpacedScheduler.applyReview
          (SpacedScheduler.reset_topic
            (SpacedScheduler.applyReview
              (SpacedScheduler.applyReview ([] : SpacedScheduler.Schedule)
                "A" 5 0 0) "A" 5 1 0) "A") "A" 5 2 0) "A" = some 1 :=
  ⟨rfl, rfl⟩

/-- Helper: after reset_topic the topic has no record. -/
theorem lookupTopic_reset (s : SpacedScheduler.Schedule) (tid : String) :
    SpacedScheduler.lookupTopic (SpacedScheduler.reset_topic s tid) tid
      = none := by
  induction s with
  | nil => rfl
  | cons e rest ih =>
    obtain ⟨k, v⟩ := e
    by_cases hk : k = tid
    · simpa [SpacedScheduler.reset_topic, List.filter_cons, hk] using ih
    · simpa [SpacedScheduler.reset_topic, List.filter_cons, hk,
        SpacedScheduler.lookupTopic] using ih

/-- C7 amended: every review increments total_reviews by exactly one, so
over any sequence of reviews (without Reset) the counter is monotonically
increasing; but Reset deletes the whole record, after which a re-created
record restarts the counter from its default, so observations across a
Reset can decrease. -/
theorem total_reviews_monotone (t : SpacedScheduler.TopicData) (q : ℤ)
    (now u : ℚ) (rs : List (ℤ × ℚ × ℚ)) (s : SpacedScheduler.Schedule)
    (tid : String) :
    (SpacedScheduler.reviewStep t q now u).total_reviews
        = t.total_reviews + 1
    ∧ (SpacedScheduler.runReviews t rs).total_reviews
        = t.total_reviews + rs.length
    ∧ t.total_reviews ≤ (SpacedScheduler.runReviews t rs).total_reviews
    ∧ SpacedScheduler.lookupTopic (SpacedScheduler.reset_topic s tid) tid
        = none := by
  have key : ∀ (l : List (ℤ × ℚ × ℚ)) (t2 : SpacedScheduler.TopicData),
      (SpacedScheduler.runReviews t2 l).total_reviews
        = t2.total_reviews + l.length := by
    intro l
    induction l with
    | nil => intro t2; rfl
    | cons r rest ih =>
      intro t2
      simp only [SpacedScheduler.runReviews, List.foldl_cons] at ih ⊢
      rw [ih]
      have hstep : (SpacedScheduler.reviewStep t2 r.1 r.2.1 r.2.2).total_reviews
          = t2.total_reviews + 1 := rfl
      rw [hstep, List.length_cons]
      omega
  refine ⟨rfl, key rs t, ?_, lookupTopic_reset s tid⟩
  rw [key rs t]
  exact Nat.le_add_right _ _

/-- Helper: dropping all but the last 20, appending one element, and again
keeping the last 20 is the same as keeping the last 20 of the extended
list. -/
theorem drop20_append {α : Type} (L : List α) (e : α) :
    (L.drop (L.length - 20) ++ [e]).drop
        ((L.drop (L.length - 20)).length + 1 - 20)
      = (L ++ [e]).drop (L.length + 1 - 20) := by
  rcases Nat.lt_or_ge L.length 20 with hn | hn
  · have e1 : L.length - 20 = 0 := by omega
    have e2 : L.length + 1 - 20 = 0 := by omega
    simp [e1, e2]
  · have e2 : (L.drop (L.length - 20)).length = 20 := by
      rw [List.length_drop]; omega
    rw [e2]
    have e3 : (20 : ℕ) + 1 - 20 = 1 := by norm_num
    rw [e3]
    rw [List.drop_append_eq_append_drop, List.drop_append_eq_append_drop,
      List.drop_drop, e2]
    have e4 : (1 : ℕ) - 20 = 0 := by norm_num
    have e5 : L.length - 20 + 1 = L.length + 1 - 20 := by omega
    have e6 : L.length + 1 - 20 - L.length = 0 := by omega
    rw [e4, e5, e6]

/-- Helper: one review appends the new entry and keeps only the last 20
entries of the history. -/
theorem hist_step (t : SpacedScheduler.TopicData) (q : ℤ) (now u : ℚ) :
    (SpacedScheduler.reviewStep t q now u).quality_history
      = (t.quality_history
          ++ [({ quality := q, timestamp := now } :
                SpacedScheduler.QualityEntry)]).drop
          ((t.quality_history.length + 1) - 20) := by
  simp only [SpacedScheduler.reviewStep, List.length_append,
    List.length_singleton]
  by_cases h : 20 < t.quality_history.length + 1
  · rw [if_pos h]
  · rw [if_neg h, Nat.sub_eq_zero_of_le (by omega), List.drop_zero]

/-- Helper: after any review sequence from a fresh record, the history is
exactly the last 20 of the chronological entry list. -/
theorem hist_run (n0 : ℚ) (rs : List (ℤ × ℚ × ℚ)) :
    (SpacedScheduler.runReviews
        (SpacedScheduler.defaultTopicData n0) rs).quality_history
      = (rs.map SpacedScheduler.entryOf).drop (rs.length - 20) := by
  induction rs using List.reverseRecOn with
  | nil => rfl
  | append_singleton l r ih =>
    have hrun : SpacedScheduler.runReviews
        (SpacedScheduler.defaultTopicData n0) (l ++ [r])
        = SpacedScheduler.reviewStep
            (SpacedScheduler.runReviews
              (SpacedScheduler.defaultTopicData n0) l) r.1 r.2.1 r.2.2 := by
      simp [SpacedScheduler.runReviews, List.foldl_append]
    rw [hrun, hist_step, ih]
    have := drop20_append (l.map SpacedScheduler.entryOf)
      (SpacedScheduler.entryOf r)
    rw [List.length_map] at this
    rw [show ({ quality := r.1, timestamp := r.2.1 } :
        SpacedScheduler.QualityEntry) = SpacedScheduler.entryOf r from rfl,
      this, List.map_append, List.length_append]
    simp [SpacedScheduler.entryOf]

/-- C5: each review appends one (quality, timestamp) entry to
quality_history and retains only the most recent 20 entries; from a fresh
record, after any review sequence the history is exactly the last 20
entries of the chronological entry list (so it never exceeds 20 entries and
stays in insertion order), and as soon as a 21st review is recorded the
oldest entry is dropped. -/
theorem quality_history_spec (t : SpacedScheduler.TopicData) (q : ℤ)
    (now u : ℚ) (n0 : ℚ) (rs : List (ℤ × ℚ × ℚ)) :
    (SpacedScheduler.reviewStep t q now u).quality_history
        = (t.quality_history
            ++ [({ quality := q, timestamp := now } :
                  SpacedScheduler.QualityEntry)]).drop
            ((t.quality_history.length + 1) - 20)
    ∧ (SpacedScheduler.runReviews
          (SpacedScheduler.defaultTopicData n0) rs).quality_history
        = (rs.map SpacedScheduler.entryOf).drop (rs.length - 20)
    ∧ (SpacedScheduler.runReviews
          (SpacedScheduler.defaultTopicData n0) rs).quality_history.length
        ≤ 20
    ∧ (rs.length = 21 →
        (SpacedScheduler.runReviews
            (SpacedScheduler.defaultTopicData n0) rs).quality_history
          = (rs.map SpacedScheduler.entryOf).drop 1) := by
  refine ⟨hist_step t q now u, hist_run n0 rs, ?_, ?_⟩
  · rw [hist_run n0 rs, List.length_drop, List.length_map]
    omega
  · intro h21
    rw [hist_run n0 rs, h21]

/-- Witness for C5: for the concrete run of 21 reviews, the history is the
chronological entry list without its oldest element. -/
theorem quality_history_spec_witness :
    (SpacedScheduler.runReviews (SpacedScheduler.defaultTopicData 0)
        SpacedScheduler.run21).quality_history
      = (SpacedScheduler.run21.map SpacedScheduler.entryOf).drop 1 :=
  (quality_history_spec (SpacedScheduler.defaultTopicData 0) 0 0 0 0
      SpacedScheduler.run21).2.2.2 rfl

/-- C1: the review interval/repetitions state machine. For quality >= 3: a
record with repetitions 0 gets nominal interval 1 day (stored in
[0.95, 1.05] after noise) and repetitions 1; repetitions 1 gets nominal 6
days (stored in [5.7, 6.3]) and repetitions 2; repetitions >= 2 gets
previous interval times the (updated) ease factor, with repetitions
incremented after the interval was computed from the pre-increment value.
For quality < 3: repetitions resets to 0 and the nominal interval is 1 day
regardless of prior state. The stored interval is always the nominal value
scaled by (1 + u), and next_review is now plus the stored interval. -/
theorem review_interval_state_machine (t : SpacedScheduler.TopicData)
    (q : ℤ) (now u : ℚ) (hu : -(5/100) ≤ u ∧ u ≤ 5/100) :
    (3 ≤ q → t.repetitions = 0 →
      (SpacedScheduler.reviewStep t q now u).repetitions = 1
      ∧ (SpacedScheduler.reviewStep t q now u).interval = 1 * (1 + u)
      ∧ 95/100 ≤ (SpacedScheduler.reviewStep t q now u).interval
      ∧ (SpacedScheduler.reviewStep t q now u).interval ≤ 105/100)
    ∧ (3 ≤ q → t.repetitions = 1 →
      (SpacedScheduler.reviewStep t q now u).repetitions = 2
      ∧ (SpacedScheduler.reviewStep t q now u).interval = 6 * (1 + u)
      ∧ 57/10 ≤ (SpacedScheduler.reviewStep t q now u).interval
      ∧ (SpacedScheduler.reviewStep t q now u).interval ≤ 63/10)
    ∧ (3 ≤ q → 2 ≤ t.repetitions →
      (SpacedScheduler.reviewStep t q now u).repetitions = t.repetitions + 1
      ∧ (SpacedScheduler.reviewStep t q now u).interval
          = (t.interval * SpacedScheduler.updateEase t.ease_factor q)
              * (1 + u))
    ∧ (q < 3 →
      (SpacedScheduler.reviewStep t q now u).repetitions = 0
      ∧ (SpacedScheduler.reviewStep t q now u).interval = 1 * (1 + u))
    ∧ (SpacedScheduler.reviewStep t q now u).next_review
        = now + (SpacedScheduler.reviewStep t q now u).interval := by
  obtain ⟨hu1, hu2⟩ := hu
  refine ⟨?_, ?_, ?_, ?_, rfl⟩
  · intro hq hr
    have hnot : ¬ (q < 3) := not_lt.mpr hq
    refine ⟨?_, ?_, ?_, ?_⟩ <;>
      simp [SpacedScheduler.reviewStep, SpacedScheduler.addNoise, hnot, hr]
        <;> linarith
  · intro hq hr
    have hnot : ¬ (q < 3) := not_lt.mpr hq
    refine ⟨?_, ?_, ?_, ?_⟩ <;>
      simp [SpacedScheduler.reviewStep, SpacedScheduler.addNoise, hnot, hr]
        <;> linarith
  · intro hq hr
    have hnot : ¬ (q < 3) := not_lt.mpr hq
    have h0 : t.repetitions ≠ 0 := by omega
    have h1 : t.repetitions ≠ 1 := by omega
    constructor <;>
      simp [SpacedScheduler.reviewStep, SpacedScheduler.addNoise,
        hnot, h0, h1]
  · intro hq
    constructor <;>
      simp [SpacedScheduler.reviewStep, SpacedScheduler.addNoise, hq]

/-- Witness for C1: a fresh record reviewed with quality 5 and zero noise
gets repetitions 1. -/
theorem review_interval_state_machine_witness :
    (SpacedScheduler.reviewStep
        (SpacedScheduler.defaultTopicData 0) 5 0 0).repetitions = 1 :=
  ((review_interval_state_machine (SpacedScheduler.defaultTopicData 0)
      5 0 0 (by norm_num)).1 (by decide) rfl).1
